import Mathlib

/-!
Verification development for the planetfatness-backend activity ingestion,
reward engine and leaderboard aggregator.

The definitions below are shallow embeddings of the TypeScript source:

* `computeEarnedCalories`, `RULES`, `SCORE_PER_MIN_CAP`, `clampQ`
  embed `src/index.ts` (current revision): the pure reward calculator.
* `Session`, `UserRow`, `submit`, `addActivityU`, `logSessionNorm`
  embed the `POST /activity/submit` handler together with the `db.ts`
  helpers `logSession` / `addActivity` (the revision whose interface the
  current `index.ts` imports: `streak`-aware `logSession`, `GREATEST`
  based `addActivity`).
* `daysFromCivil`, `truncDayQ`, `truncWeekQ`, `truncMonthQ`, `whereTimeLB`
  embed the `getLeaderboardV2` window filters (`date_trunc('day'|'week'|
  'month', NOW())` lower bounds on `sessions.created_at`).

JavaScript numbers are modelled as exact rationals (`ℚ`); `Math.floor`
is `Int.floor`; the SQL `BIGINT`/`INT` columns are `ℤ`.
-/

namespace PF

/-- The closed game enumeration of `src/index.ts` (`type GameKey`). -/
inductive GameKey where
  | runner | snack | lift | basket | greed
deriving DecidableEq, Repr

/-- Rejection reasons returned by `computeEarnedCalories`. -/
inductive Reason where
  | ok | too_short | score_too_high
deriving DecidableEq, Repr

/-- Per-game fairness parameters (`COMMON_RULES` / `RULES` in `src/index.ts`). -/
structure Rules where
  minDurationMs : ℕ
  maxRunCalories : ℕ
  dailyCapCalories : ℕ
  cpmCap : ℕ
  maxScorePerRun : ℕ
deriving DecidableEq, Repr

/-- `COMMON_RULES` from `src/index.ts`: `minDurationMs = 10_000`,
`maxRunCalories = 180`, `dailyCapCalories = 1200`, `cpmCap = 220`,
and `maxScorePerRun = 0` as added per game in `RULES`. -/
def COMMON_RULES : Rules :=
  { minDurationMs := 10000
    maxRunCalories := 180
    dailyCapCalories := 1200
    cpmCap := 220
    maxScorePerRun := 0 }

/-- The `RULES` table: every configured game spreads `COMMON_RULES` and sets
`maxScorePerRun := 0`.  `greed` has no entry in the source table; the submit
handler falls back to `COMMON_RULES` (`RULES[game] || COMMON_RULES`), which we
model by totalising with the same record (the calculator never reads rules for
`greed` because of its early return). -/
def RULES : GameKey → Rules := fun _ => COMMON_RULES

/-- `SCORE_PER_MIN_CAP` from `src/index.ts`.  The source record has keys
`runner | snack | lift | basket` only; it is consulted solely on the
`game !== "runner"` branch, and never for `greed` (early return), so the
value chosen for `greed` here is irrelevant to all reachable paths. -/
def SCORE_PER_MIN_CAP : GameKey → ℚ
  | GameKey.runner => 999999
  | GameKey.snack => 520
  | GameKey.lift => 450
  | GameKey.basket => 360
  | GameKey.greed => 0

/-- `clamp(n, a, b) = Math.max(a, Math.min(b, n))` from `src/index.ts`. -/
def clampQ (n a b : ℚ) : ℚ := max a (min b n)

/-- The anti-cheat score rate of a submission:
`scorePerMin = durationMin > 0 ? score / durationMin : score`, on the
normalised score and duration, exactly as computed inside
`computeEarnedCalories`. -/
def scoreRate (score durationMs : ℚ) : ℚ :=
  let durMsN : ℤ := max 0 ⌊durationMs⌋
  let durationMin : ℚ := (durMsN : ℚ) / 60000
  let score' : ℚ := max 0 score
  if 0 < durationMin then score' / durationMin else score'

/-- `computeEarnedCalories` from `src/index.ts`, returning the pair
`(earnedCalories, reason)`.  The `normalized` echo field of the source return
value is not modelled: no caller reads it.  Inputs are the raw JS numbers;
normalisation (`Math.max(0, ·)`, `Math.floor`) is performed inside, exactly as
in the source. -/
def computeEarnedCalories (game : GameKey) (score miles bestSeconds durationMs : ℚ) :
    ℤ × Reason :=
  -- `if (game === "greed") return { earnedCalories: 0, reason: "ok" }`
  if game = GameKey.greed then (0, Reason.ok)
  else
    let rules := RULES game
    let durMsN : ℤ := max 0 ⌊durationMs⌋
    let durationMin : ℚ := (durMsN : ℚ) / 60000
    let score' : ℚ := max 0 score
    let miles' : ℚ := max 0 miles
    let _bestSeconds' : ℚ := max 0 bestSeconds
    if (durMsN : ℚ) < (rules.minDurationMs : ℚ) then (0, Reason.too_short)
    else
      -- anti-cheat score-rate check, skipped for `runner`
      let scorePerMin : ℚ := if 0 < durationMin then score' / durationMin else score'
      if game ≠ GameKey.runner ∧ SCORE_PER_MIN_CAP game < scorePerMin then
        (0, Reason.score_too_high)
      else
        let base : ℚ :=
          match game with
          | GameKey.snack => score' * (11 / 5)      -- score * 2.2
          | GameKey.basket => score' * (9 / 5)      -- score * 1.8
          | GameKey.lift => score' * 2              -- score * 2.0
          | GameKey.runner =>
              if miles' ≤ 0 then durationMin * 120 else miles' * 110
          | GameKey.greed => 0                      -- unreachable: early return above
        let timeCap : ℚ := durationMin * (rules.cpmCap : ℚ)
        (⌊clampQ base 0 (min timeCap (rules.maxRunCalories : ℚ))⌋, Reason.ok)

/-! ### Session ledger, user rollups, and the `/activity/submit` pipeline -/

/-- One `sessions` table row (receipt), as inserted by `logSession`
(`db.ts`, streak-aware revision): `calories`/`score`/`duration_ms`/`streak`
are floored to integers, `miles`/`best_seconds` stay fractional. -/
structure Session where
  game : GameKey
  calories : ℤ
  miles : ℚ
  bestSeconds : ℚ
  score : ℤ
  streak : ℤ
  durationMs : ℤ
deriving DecidableEq, Repr

/-- One `users` table row: the lifetime rollups touched by `addActivity`
(`total_calories`, `best_seconds`, `total_miles`).  Column defaults are 0. -/
structure UserRow where
  totalCalories : ℤ
  bestSeconds : ℚ
  totalMiles : ℚ
deriving DecidableEq, Repr

/-- Durable state for one address: its session receipts (all created within
the current calendar day, the window `getTodayAgg` aggregates over) and its
rollup row. -/
structure St where
  sessions : List Session
  user : UserRow
deriving DecidableEq, Repr

/-- A `POST /activity/submit` body after `asGameKey` coercion: raw JS numbers
for `score`, `miles`, `bestSeconds`, `durationMs`, `streak`. -/
structure SubmitReq where
  game : GameKey
  score : ℚ
  miles : ℚ
  bestSeconds : ℚ
  durationMs : ℚ
  streak : ℚ
deriving DecidableEq, Repr

/-- `getTodayAgg(address, game).calories`: the sum of `calories` over the
day's `sessions` rows of this (address, game)
(`SUM(CASE WHEN created_at >= date_trunc('day', NOW()) THEN calories ...)`;
in this single-day state every stored session is from today). -/
def getTodayCalories (st : St) (g : GameKey) : ℤ :=
  ((st.sessions.filter fun s => s.game = g).map Session.calories).sum

/-- `logSession` row construction and normalisation (`db.ts`):
`Math.max(0, Math.floor(...))` on calories, score, duration, streak;
`Math.max(0, ...)` on miles and bestSeconds. -/
def logSessionRow (game : GameKey) (calories miles bestSeconds score durationMs streak : ℚ) :
    Session :=
  { game := game
    calories := max 0 ⌊calories⌋
    miles := max 0 miles
    bestSeconds := max 0 bestSeconds
    score := max 0 ⌊score⌋
    streak := max 0 ⌊streak⌋
    durationMs := max 0 ⌊durationMs⌋ }

/-- `addActivity` (`db.ts`): atomic rollup upsert
`total_calories += max(0, floor(addCalories))`,
`total_miles += max(0, addMiles)`,
`best_seconds = GREATEST(best_seconds, max(0, bestSeconds))`. -/
def addActivityU (u : UserRow) (addCalories bestSeconds addMiles : ℚ) : UserRow :=
  { totalCalories := u.totalCalories + max 0 ⌊addCalories⌋
    totalMiles := u.totalMiles + max 0 addMiles
    bestSeconds := max u.bestSeconds (max 0 bestSeconds) }

/-- A sequence of `addActivity` applies for one user; each element is the
`(addCalories, bestSeconds, addMiles)` argument triple of one call. -/
def runAddActivities (u : UserRow) (applies : List (ℚ × ℚ × ℚ)) : UserRow :=
  applies.foldl (fun u p => addActivityU u p.1 p.2.1 p.2.2) u

/-- The submit handler's daily-cap arithmetic (`src/index.ts` lines 495-499):
`remaining = Math.max(0, rules.dailyCapCalories - todayBefore.calories)`,
`earnedCapped = Math.max(0, Math.min(calc.earnedCalories, remaining))`,
with `rules = RULES[game] || COMMON_RULES`. -/
def cappedCredit (g : GameKey) (provisional todayBefore : ℤ) : ℤ :=
  let rules := RULES g
  let remaining : ℤ := max 0 ((rules.dailyCapCalories : ℤ) - todayBefore)
  max 0 (min provisional remaining)

/-- The handler's streak normalisation:
`Math.max(0, Math.floor(Number(req.body?.streak ?? 0) || 0))`. -/
def streakNorm (q : ℚ) : ℤ := max 0 ⌊q⌋

/-- Read phase of the submit handler: the `await getTodayAgg(address, game)`
snapshot taken before any write. -/
def todaySnapshot (st : St) (g : GameKey) : ℤ := getTodayCalories st g

/-- Write phase of the submit handler, applied to a previously read
`todayBefore` snapshot: compute calories, cap them against the snapshot, log
the receipt (with the handler's `Math.max(0, ...)` argument clamps composed
with `logSession`'s own), update the lifetime rollups, and return
`(state, earnedCapped, reason)` for the response. -/
def submitWrite (st : St) (r : SubmitReq) (todayBefore : ℤ) : St × ℤ × Reason :=
  let calcR := computeEarnedCalories r.game r.score r.miles r.bestSeconds r.durationMs
  let earnedCapped := cappedCredit r.game calcR.1 todayBefore
  let sess := logSessionRow r.game (earnedCapped : ℚ) (max 0 r.miles) (max 0 r.bestSeconds)
    (max 0 r.score) (((max 0 ⌊r.durationMs⌋ : ℤ) : ℚ)) ((streakNorm r.streak : ℚ))
  let user' := addActivityU st.user (earnedCapped : ℚ) (max 0 r.bestSeconds) (max 0 r.miles)
  (⟨st.sessions ++ [sess], user'⟩, earnedCapped, calcR.2)

/-- `POST /activity/submit`, processed without interleaving: reject with a
validation error (`none`) unless `0 < durationMs`, otherwise run the read
phase immediately followed by the write phase. -/
def submit (st : St) (r : SubmitReq) : Option (St × ℤ × Reason) :=
  if 0 < r.durationMs then some (submitWrite st r (todaySnapshot st r.game)) else none

/-- State after one submit request (a validation-rejected request writes
nothing). -/
def submitApply (st : St) (r : SubmitReq) : St :=
  match submit st r with
  | some (st', _, _) => st'
  | none => st

/-- State after a sequence of submit requests processed one at a time. -/
def runSubmits (st : St) (rs : List SubmitReq) : St := rs.foldl submitApply st

/-- Two concurrent submit requests under the interleaving in which both
handlers run their `getTodayAgg` read before either runs its `logSession`
write (legal, since the handler awaits between the two). -/
def racedPair (st : St) (r1 r2 : SubmitReq) : St :=
  let t1 := todaySnapshot st r1.game
  let t2 := todaySnapshot st r2.game
  let st1 := (submitWrite st r1 t1).1
  (submitWrite st1 r2 t2).1

/-- The submit handler's persistence structure (`src/index.ts` lines
500-521): `await logSession(...)` then `await addActivity(...)`, two separate
statements inside one `try/catch` that answers 500 — no transaction.  The
two `Bool` flags say whether each database write throws.  Returns the
persisted state and whether the request succeeds. -/
def submitPersist (st : St) (r : SubmitReq) (logFails rollupFails : Bool) : St × Bool :=
  let calcR := computeEarnedCalories r.game r.score r.miles r.bestSeconds r.durationMs
  let earnedCapped := cappedCredit r.game calcR.1 (todaySnapshot st r.game)
  let sess := logSessionRow r.game (earnedCapped : ℚ) (max 0 r.miles) (max 0 r.bestSeconds)
    (max 0 r.score) (((max 0 ⌊r.durationMs⌋ : ℤ) : ℚ)) ((streakNorm r.streak : ℚ))
  if logFails then (st, false)
  else
    let stLogged : St := { st with sessions := st.sessions ++ [sess] }
    if rollupFails then (stLogged, false)
    else ({ stLogged with
              user := addActivityU st.user (earnedCapped : ℚ) (max 0 r.bestSeconds)
                (max 0 r.miles) },
          true)

/-- The legacy `POST /activity/add` persistence structure (`src/index.ts`
lines 420-453) for a payload that looks like a receipt: the lifetime rollup
update runs first; the receipt insert is attempted inside its own
`try { ... } catch` whose failure is logged and swallowed, so the response
is a success either way. -/
def addPathPersist (st : St) (addCalories bestSeconds addMiles : ℚ) (receipt : Session)
    (logFails : Bool) : St × Bool :=
  let st1 : St := { st with user := addActivityU st.user addCalories bestSeconds addMiles }
  if logFails then (st1, true)
  else ({ st1 with sessions := st1.sessions ++ [receipt] }, true)

/-! ### Calendar time and the leaderboard window filters

`getLeaderboardV2` (db.ts revision paired with the current `index.ts`) turns
the `window` parameter into a lower bound on `sessions.created_at`:

```
if (window === "day")   whereTime = `AND s.created_at >= date_trunc('day', NOW())`
if (window === "week")  whereTime = `AND s.created_at >= date_trunc('week', NOW())`
if (window === "month") whereTime = `AND s.created_at >= date_trunc('month', NOW())`
```

Timestamps are modelled as proleptic-Gregorian civil datetimes; `date_trunc`
is modelled by its PostgreSQL semantics (start of the current calendar day,
ISO week starting Monday, calendar month).  A timestamp is compared through
its day number (days since 1970-01-01, standard civil-calendar arithmetic)
plus the elapsed fraction of the day. -/

/-- A civil datetime: a proleptic-Gregorian date plus the elapsed fraction of
the day (`frac ∈ [0, 1)` for a valid timestamp). -/
structure Civil where
  year : ℕ
  month : ℕ
  day : ℕ
  frac : ℚ
deriving DecidableEq, Repr

/-- Validity of a civil timestamp (field ranges; day bounded by 31). -/
def Civil.Valid (c : Civil) : Prop :=
  1 ≤ c.year ∧ 1 ≤ c.month ∧ c.month ≤ 12 ∧ 1 ≤ c.day ∧ c.day ≤ 31 ∧
    0 ≤ c.frac ∧ c.frac < 1

/-- Day number of a Gregorian date, relative to 1970-01-01 (standard
era-based civil-calendar conversion; all intermediate quantities are
naturals for `1 ≤ year`). -/
def daysFromCivil (y m d : ℕ) : ℤ :=
  let y' : ℕ := if m ≤ 2 then y - 1 else y
  let era : ℕ := y' / 400
  let yoe : ℕ := y' % 400
  let mp : ℕ := (m + 9) % 12
  let doy : ℕ := (153 * mp + 2) / 5 + (d - 1)
  let doe : ℕ := yoe * 365 + yoe / 4 - yoe / 100 + doy
  (era * 146097 + doe : ℤ) - 719468

/-- Day number of a civil timestamp's date. -/
def Civil.days (c : Civil) : ℤ := daysFromCivil c.year c.month c.day

/-- A civil timestamp as a rational number of days since 1970-01-01. -/
def Civil.toQ (c : Civil) : ℚ := (c.days : ℚ) + c.frac

/-- `date_trunc('day', t)`: midnight of `t`'s date. -/
def truncDayQ (c : Civil) : ℚ := (c.days : ℚ)

/-- `date_trunc('week', t)`: midnight of the Monday of `t`'s ISO week.
Day number 0 (1970-01-01) is a Thursday, so `(z + 3) % 7` is the number of
days since the last Monday. -/
def truncWeekQ (c : Civil) : ℚ := ((c.days - (c.days + 3) % 7 : ℤ) : ℚ)

/-- `date_trunc('month', t)`: midnight of the first day of `t`'s month. -/
def truncMonthQ (c : Civil) : ℚ := ((daysFromCivil c.year c.month 1 : ℤ) : ℚ)

/-- The `whereTime` lower bound chosen by `getLeaderboardV2` for a given
`window` string and the current time: any string other than
`"day" | "week" | "month"` (in particular `"lifetime"`) leaves the scan
unfiltered. -/
def whereTimeLB (window : String) (now : Civil) : Option ℚ :=
  if window = "day" then some (truncDayQ now)
  else if window = "week" then some (truncWeekQ now)
  else if window = "month" then some (truncMonthQ now)
  else none

/-- Whether a session with creation time `s` passes the window filter
(`s.created_at >= <lower bound>`). -/
def sessionInWindow (window : String) (now s : Civil) : Prop :=
  match whereTimeLB window now with
  | some lb => lb ≤ s.toQ
  | none => True

/-- The rolling-interval alternative the specification rules out
(`NOW() - INTERVAL '1 day' / '7 days' / '30 days'`), for comparison. -/
def rollingLB (window : String) (now : Civil) : Option ℚ :=
  if window = "day" then some (now.toQ - 1)
  else if window = "week" then some (now.toQ - 7)
  else if window = "month" then some (now.toQ - 30)
  else none

/-! ### Basic lemmas about the reward calculator -/

/-- The normalised duration `Math.max(0, Math.floor(d))` never exceeds a
non-negative raw duration. -/
theorem durMsNorm_le {d : ℚ} (hd : 0 ≤ d) : ((max 0 ⌊d⌋ : ℤ) : ℚ) ≤ d := by
  have h1 : (⌊d⌋ : ℚ) ≤ d := Int.floor_le d
  have h2 : (0 : ℤ) ≤ ⌊d⌋ := Int.floor_nonneg.mpr hd
  have : (max 0 ⌊d⌋ : ℤ) = ⌊d⌋ := max_eq_right h2
  rw [this]
  exact h1

/-- `computeEarnedCalories` never returns a negative amount. -/
theorem computeEarnedCalories_nonneg (g : GameKey) (s m b d : ℚ) :
    0 ≤ (computeEarnedCalories g s m b d).1 := by
  unfold computeEarnedCalories
  dsimp only
  split_ifs <;>
    first
      | exact le_refl 0
      | exact Int.floor_nonneg.mpr (le_max_left 0 _)

/-- A fairness rejection carries amount 0. -/
theorem computeEarnedCalories_rejected (g : GameKey) (s m b d : ℚ)
    (h : (computeEarnedCalories g s m b d).2 ≠ Reason.ok) :
    (computeEarnedCalories g s m b d).1 = 0 := by
  unfold computeEarnedCalories at h ⊢
  dsimp only at h ⊢
  split_ifs at h ⊢ <;> first | rfl | exact absurd rfl h

/-- C4: for every game with configured rules, a submission whose `durationMs`
is below the game's `minDurationMs` earns 0 with reason `too_short`,
regardless of score, miles or bestSeconds. -/
theorem short_duration_earns_zero (g : GameKey) (s m b d : ℚ)
    (hg : g = GameKey.runner ∨ g = GameKey.snack ∨ g = GameKey.lift ∨ g = GameKey.basket)
    (hd : d < ((RULES g).minDurationMs : ℚ)) :
    computeEarnedCalories g s m b d = (0, Reason.too_short) := by
  have hcap : ((RULES g).minDurationMs : ℚ) = 10000 := by
    rcases hg with rfl | rfl | rfl | rfl <;> norm_num [RULES, COMMON_RULES]
  rw [hcap] at hd
  have hfl : ⌊d⌋ < 10000 := by
    have := Int.floor_le d
    have : (⌊d⌋ : ℚ) < 10000 := lt_of_le_of_lt this hd
    exact_mod_cast this
  have hlt : ((max 0 ⌊d⌋ : ℤ) : ℚ) < ((RULES g).minDurationMs : ℚ) := by
    rw [hcap]
    have : (max 0 ⌊d⌋ : ℤ) < 10000 := by omega
    exact_mod_cast this
  have hne : ¬ g = GameKey.greed := by
    rcases hg with rfl | rfl | rfl | rfl <;> simp
  unfold computeEarnedCalories
  rw [if_neg hne]
  dsimp only
  rw [if_pos hlt]

/-- C4 witness: a snack submission of 5 seconds with a huge score is rejected
`too_short` with 0 calories. -/
theorem short_duration_earns_zero_witness :
    computeEarnedCalories GameKey.snack 100000 0 0 5000 = (0, Reason.too_short) :=
  short_duration_earns_zero GameKey.snack 100000 0 0 5000 (Or.inr (Or.inl rfl))
    (by norm_num [RULES, COMMON_RULES])

/-- C5: every game that carries a score-per-minute ceiling (`snack`, `lift`,
`basket` — every configured game except the distance game) is rejected with
`score_too_high` and amount 0 whenever its submission passes the duration
gate but its score rate exceeds the game's `SCORE_PER_MIN_CAP`; the distance
game `runner` never receives a `score_too_high` rejection. -/
theorem score_rate_rejection (g : GameKey) (s m b d : ℚ) :
    ((g = GameKey.snack ∨ g = GameKey.lift ∨ g = GameKey.basket) →
      ¬ (((max 0 ⌊d⌋ : ℤ) : ℚ) < ((RULES g).minDurationMs : ℚ)) →
      SCORE_PER_MIN_CAP g < scoreRate s d →
      computeEarnedCalories g s m b d = (0, Reason.score_too_high))
    ∧ (computeEarnedCalories GameKey.runner s m b d).2 ≠ Reason.score_too_high := by
  constructor
  · intro hg hshort hrate
    have hgreed : ¬ g = GameKey.greed := by
      rcases hg with rfl | rfl | rfl <;> simp
    have hner : g ≠ GameKey.runner := by
      rcases hg with rfl | rfl | rfl <;> simp
    unfold scoreRate at hrate
    dsimp only at hrate
    unfold computeEarnedCalories
    rw [if_neg hgreed]
    dsimp only
    rw [if_neg hshort, if_pos ⟨hner, hrate⟩]
  · unfold computeEarnedCalories
    rw [if_neg (by simp : ¬ GameKey.runner = GameKey.greed)]
    dsimp only
    split_ifs <;> simp_all

/-- C5 witness: a 10-second snack run at 600 points per minute (above the 520
ceiling) is rejected `score_too_high`, and a runner submission with an absurd
score is not. -/
theorem score_rate_rejection_witness :
    computeEarnedCalories GameKey.snack 100 0 0 10000 = (0, Reason.score_too_high)
    ∧ (computeEarnedCalories GameKey.runner 999999999 2 0 60000).2 ≠ Reason.score_too_high := by
  constructor
  · exact (score_rate_rejection GameKey.snack 100 0 0 10000).1 (Or.inl rfl)
      (by norm_num [RULES, COMMON_RULES])
      (by norm_num [scoreRate, SCORE_PER_MIN_CAP])
  · exact (score_rate_rejection GameKey.runner 999999999 2 0 60000).2

/-- The floored clamp never exceeds a non-negative upper bound. -/
theorem floor_clamp_le_ub (base ub : ℚ) (hub : 0 ≤ ub) :
    ((⌊clampQ base 0 ub⌋ : ℤ) : ℚ) ≤ ub :=
  le_trans (Int.floor_le _) (max_le hub (min_le_left _ _))

/-- C3: every accepted session's earned amount is at most
`min(maxRunCalories, durationMinutes * cpmCap)` for the game's configured
rules, where `durationMinutes = durationMs / 60000` of the submitted
(positive) duration. -/
theorem earned_within_run_and_time_caps (g : GameKey) (s m b d : ℚ)
    (hd : 0 < d)
    (hok : (computeEarnedCalories g s m b d).2 = Reason.ok) :
    ((computeEarnedCalories g s m b d).1 : ℚ) ≤
      min ((RULES g).maxRunCalories : ℚ) (d / 60000 * ((RULES g).cpmCap : ℚ)) := by
  have hmin0 : (0 : ℚ) ≤
      min ((RULES g).maxRunCalories : ℚ) (d / 60000 * ((RULES g).cpmCap : ℚ)) :=
    le_min (by positivity) (by positivity)
  have hN0 : (0 : ℚ) ≤ ((max 0 ⌊d⌋ : ℤ) : ℚ) :=
    Int.cast_nonneg.mpr (le_max_left 0 ⌊d⌋)
  have htime : ((max 0 ⌊d⌋ : ℤ) : ℚ) / 60000 * ((RULES g).cpmCap : ℚ) ≤
      d / 60000 * ((RULES g).cpmCap : ℚ) :=
    mul_le_mul_of_nonneg_right
      ((div_le_div_iff_of_pos_right (by norm_num)).mpr (durMsNorm_le hd.le))
      (Nat.cast_nonneg _)
  have hub : (0 : ℚ) ≤
      min (((max 0 ⌊d⌋ : ℤ) : ℚ) / 60000 * ((RULES g).cpmCap : ℚ))
        ((RULES g).maxRunCalories : ℚ) :=
    le_min (mul_nonneg (div_nonneg hN0 (by norm_num)) (Nat.cast_nonneg _)) (Nat.cast_nonneg _)
  by_cases hg : g = GameKey.greed
  · unfold computeEarnedCalories
    rw [if_pos hg]
    exact hmin0
  · unfold computeEarnedCalories at hok ⊢
    rw [if_neg hg] at hok ⊢
    dsimp only at hok ⊢
    split_ifs at hok ⊢ <;>
      first
        | exact absurd hok (by decide)
        | exact le_trans (floor_clamp_le_ub _ _ hub)
            (le_trans (min_le_min htime le_rfl) (le_of_eq (min_comm _ _)))

/-- C3 witness: an accepted one-minute snack run of score 50 earns 110,
within `min(180, 1 * 220)`. -/
theorem earned_within_run_and_time_caps_witness :
    ((computeEarnedCalories GameKey.snack 50 0 0 60000).1 : ℚ) ≤
      min ((RULES GameKey.snack).maxRunCalories : ℚ)
        (60000 / 60000 * ((RULES GameKey.snack).cpmCap : ℚ)) := by
  refine earned_within_run_and_time_caps GameKey.snack 50 0 0 60000 (by norm_num) ?_
  have h : computeEarnedCalories GameKey.snack 50 0 0 60000 = (110, Reason.ok) := by
    norm_num [computeEarnedCalories, clampQ, RULES, COMMON_RULES, SCORE_PER_MIN_CAP] <;> decide
  rw [h]

/-! ### The daily cap under sequential submissions -/

/-- Appending one receipt adds its calories to the day total of its game and
leaves other games' totals unchanged. -/
theorem getTodayCalories_append (st : St) (s : Session) (u' : UserRow) (g : GameKey) :
    getTodayCalories ⟨st.sessions ++ [s], u'⟩ g =
      getTodayCalories st g + (if s.game = g then s.calories else 0) := by
  unfold getTodayCalories
  rw [List.filter_append, List.map_append, List.sum_append]
  congr 1
  by_cases h : s.game = g <;> simp [List.filter_singleton, h]

/-- The handler's capped credit equals the specification formula
`max(0, min(provisional, dailyCap - todayTotal))`. -/
theorem cappedCredit_eq_spec (g : GameKey) (p t : ℤ) :
    cappedCredit g p t =
      max 0 (min p (((RULES g).dailyCapCalories : ℤ) - t)) := by
  unfold cappedCredit
  dsimp only
  omega

/-- A capped credit never lifts a within-cap day total above the cap. -/
theorem cappedCredit_le_cap (g : GameKey) (p t : ℤ)
    (h : t ≤ ((RULES g).dailyCapCalories : ℤ)) :
    t + max 0 (cappedCredit g p t) ≤ ((RULES g).dailyCapCalories : ℤ) := by
  unfold cappedCredit
  dsimp only
  omega

/-- A capped credit that was clamped (the provisional amount overshoots the
cap) lands the day total exactly on the cap. -/
theorem cappedCredit_exact_cap (g : GameKey) (p t : ℤ)
    (h : t ≤ ((RULES g).dailyCapCalories : ℤ))
    (h2 : ((RULES g).dailyCapCalories : ℤ) < t + p) :
    t + max 0 (cappedCredit g p t) = ((RULES g).dailyCapCalories : ℤ) := by
  unfold cappedCredit
  dsimp only
  omega

/-- One processed submission preserves the per-game daily-cap invariant. -/
theorem submitApply_cap_invariant (st : St) (r : SubmitReq)
    (h : ∀ g, getTodayCalories st g ≤ ((RULES g).dailyCapCalories : ℤ)) :
    ∀ g, getTodayCalories (submitApply st r) g ≤ ((RULES g).dailyCapCalories : ℤ) := by
  intro g
  unfold submitApply submit
  split_ifs with hd
  · dsimp only [submitWrite]
    rw [getTodayCalories_append]
    dsimp only [logSessionRow]
    rw [Int.floor_intCast]
    by_cases hgame : r.game = g
    · rw [if_pos hgame]
      subst hgame
      exact cappedCredit_le_cap _ _ _ (h r.game)
    · rw [if_neg hgame]
      simpa using h g
  · exact h g

/-- The daily-cap invariant holds after any sequence of submissions. -/
theorem runSubmits_cap_invariant (rs : List SubmitReq) (st : St)
    (h : ∀ g, getTodayCalories st g ≤ ((RULES g).dailyCapCalories : ℤ)) :
    ∀ g, getTodayCalories (runSubmits st rs) g ≤ ((RULES g).dailyCapCalories : ℤ) := by
  induction rs generalizing st with
  | nil => exact h
  | cons r rs ih =>
      exact ih (submitApply st r) (submitApply_cap_invariant st r h)

/-- C1: over any sequence of `/activity/submit` requests processed one at a
time from an empty day, every game's day total stays at or below its
`dailyCapCalories`; each accepted submission's credited amount equals
`max(0, min(provisional, dailyCap - todayTotal))`; and a submission whose
provisional amount would overshoot the cap lands the day total exactly on
the cap. -/
theorem submit_daily_cap_clamped :
    (∀ (u0 : UserRow) (rs : List SubmitReq) (g : GameKey),
        getTodayCalories (runSubmits ⟨[], u0⟩ rs) g ≤ ((RULES g).dailyCapCalories : ℤ))
    ∧ (∀ (st : St) (r : SubmitReq) (out : St × ℤ × Reason),
        submit st r = some out →
        (out.2.1 =
            max 0 (min (computeEarnedCalories r.game r.score r.miles r.bestSeconds r.durationMs).1
              (((RULES r.game).dailyCapCalories : ℤ) - getTodayCalories st r.game))
        ∧ (getTodayCalories st r.game ≤ ((RULES r.game).dailyCapCalories : ℤ) →
            ((RULES r.game).dailyCapCalories : ℤ) <
              getTodayCalories st r.game +
                (computeEarnedCalories r.game r.score r.miles r.bestSeconds r.durationMs).1 →
            getTodayCalories out.1 r.game = ((RULES r.game).dailyCapCalories : ℤ)))) := by
  constructor
  · intro u0 rs g
    refine runSubmits_cap_invariant rs ⟨[], u0⟩ (fun g' => ?_) g
    simp [getTodayCalories]
  · intro st r out hsub
    unfold submit at hsub
    split_ifs at hsub with hd
    · injection hsub with hout
      subst hout
      constructor
      · exact cappedCredit_eq_spec r.game _ _
      · intro hle hover
        dsimp only [submitWrite]
        rw [getTodayCalories_append]
        dsimp only [logSessionRow]
        rw [Int.floor_intCast, if_pos rfl]
        exact cappedCredit_exact_cap r.game _ _ hle hover

/-- C1 witness: two runner submissions from an empty day stay within the
1200 cap; and, from a day total of 1100, a provisional 180 is clamped to 100
(`max(0, min(180, 1200 - 1100))`), landing the day total exactly on 1200. -/
theorem submit_daily_cap_clamped_witness :
    (getTodayCalories
        (runSubmits ⟨[], ⟨0, 0, 0⟩⟩
          [⟨GameKey.runner, 0, 2, 0, 60000, 0⟩, ⟨GameKey.runner, 0, 2, 0, 60000, 0⟩])
        GameKey.runner ≤ ((RULES GameKey.runner).dailyCapCalories : ℤ))
    ∧ (100 : ℤ) =
        max 0 (min (computeEarnedCalories GameKey.runner 0 2 0 60000).1
          (((RULES GameKey.runner).dailyCapCalories : ℤ) - 1100))
    ∧ getTodayCalories
        ⟨[⟨GameKey.runner, 1100, 0, 0, 0, 0, 600000⟩,
          ⟨GameKey.runner, 100, 2, 0, 0, 0, 60000⟩], ⟨100, 0, 2⟩⟩ GameKey.runner =
        ((RULES GameKey.runner).dailyCapCalories : ℤ) := by
  have hcalc : computeEarnedCalories GameKey.runner 0 2 0 60000 = (180, Reason.ok) := by
    norm_num [computeEarnedCalories, clampQ, RULES, COMMON_RULES, SCORE_PER_MIN_CAP] <;> decide
  have hsub : submit ⟨[⟨GameKey.runner, 1100, 0, 0, 0, 0, 600000⟩], ⟨0, 0, 0⟩⟩
      ⟨GameKey.runner, 0, 2, 0, 60000, 0⟩ =
      some (⟨[⟨GameKey.runner, 1100, 0, 0, 0, 0, 600000⟩,
              ⟨GameKey.runner, 100, 2, 0, 0, 0, 60000⟩], ⟨100, 0, 2⟩⟩, 100, Reason.ok) := by
    norm_num [submit, submitWrite, todaySnapshot, getTodayCalories, cappedCredit, logSessionRow,
      addActivityU, streakNorm, hcalc, RULES, COMMON_RULES] <;> decide
  have htoday : getTodayCalories ⟨[⟨GameKey.runner, 1100, 0, 0, 0, 0, 600000⟩], ⟨0, 0, 0⟩⟩
      GameKey.runner = 1100 := by
    norm_num [getTodayCalories]
  have h2 := submit_daily_cap_clamped.2 _ _ _ hsub
  refine ⟨submit_daily_cap_clamped.1 ⟨0, 0, 0⟩ _ _, ?_, ?_⟩
  · have h21 := h2.1
    rw [htoday] at h21
    exact h21
  · have h22 := h2.2 (by rw [htoday]; norm_num [RULES, COMMON_RULES])
      (by rw [htoday, hcalc]; norm_num [RULES, COMMON_RULES])
    exact h22

/-! ### Fairness-rejected submissions still reach the ledger and rollups -/

/-- Double clamping at zero collapses (rational version). -/
theorem max0_max0_q (x : ℚ) : max 0 (max 0 x) = max 0 x := by
  rw [← max_assoc, max_self]

/-- Double clamping at zero collapses (integer version). -/
theorem max0_max0_z (x : ℤ) : max 0 (max 0 x) = max 0 x := by
  rw [← max_assoc, max_self]

/-- Clamping before flooring is the same as clamping after flooring. -/
theorem max0_floor_max0 (q : ℚ) : max 0 ⌊max 0 q⌋ = max 0 ⌊q⌋ := by
  rcases le_total q 0 with h | h
  · rw [max_eq_left h]
    have hq : ⌊q⌋ ≤ 0 := by
      have := Int.floor_le_floor (α := ℚ) h
      simpa using this
    simp [max_eq_left hq]
  · rw [max_eq_right h]

/-- A zero provisional amount is credited as zero. -/
theorem cappedCredit_zero (g : GameKey) (t : ℤ) : cappedCredit g 0 t = 0 := by
  unfold cappedCredit
  dsimp only
  omega

/-- C10: a fairness-rejected submission (`too_short` or `score_too_high`) is
not discarded: the response credits 0, a receipt with calories 0 but the
normalised raw score, miles, streak and duration is still appended to the
ledger, and the raw miles and bestSeconds are still folded into the lifetime
rollups while the lifetime calorie total is unchanged. -/
theorem rejected_submission_still_logged (st : St) (r : SubmitReq) (out : St × ℤ × Reason)
    (hsub : submit st r = some out)
    (hrej : (computeEarnedCalories r.game r.score r.miles r.bestSeconds r.durationMs).2 =
        Reason.too_short ∨
      (computeEarnedCalories r.game r.score r.miles r.bestSeconds r.durationMs).2 =
        Reason.score_too_high) :
    out.2.1 = 0
    ∧ out.1.sessions = st.sessions ++
        [{ game := r.game, calories := 0, miles := max 0 r.miles,
           bestSeconds := max 0 r.bestSeconds, score := max 0 ⌊r.score⌋,
           streak := max 0 ⌊r.streak⌋, durationMs := max 0 ⌊r.durationMs⌋ }]
    ∧ out.1.user.totalCalories = st.user.totalCalories
    ∧ out.1.user.totalMiles = st.user.totalMiles + max 0 r.miles
    ∧ out.1.user.bestSeconds = max st.user.bestSeconds (max 0 r.bestSeconds) := by
  have hzero : (computeEarnedCalories r.game r.score r.miles r.bestSeconds r.durationMs).1 = 0 :=
    computeEarnedCalories_rejected _ _ _ _ _ (by rcases hrej with h | h <;> simp [h])
  unfold submit at hsub
  split_ifs at hsub with hd
  injection hsub with hout
  subst hout
  dsimp only [submitWrite, logSessionRow, addActivityU, streakNorm, todaySnapshot]
  rw [hzero, cappedCredit_zero]
  refine ⟨rfl, ?_, ?_, ?_, ?_⟩
  · simp only [Int.floor_intCast, max0_max0_z, max0_floor_max0, max0_max0_q]
    norm_num
  · norm_num
  · rw [max0_max0_q]
  · rw [max0_max0_q]

/-- C10 witness: a too-short snack submission (5 s) earns 0 but its receipt
(score 5, miles 1.5, streak 2, 5000 ms) is appended and the user's lifetime
miles and best seconds still advance. -/
theorem rejected_submission_still_logged_witness :
    ((⟨[⟨GameKey.snack, 0, 3/2, 30, 5, 2, 5000⟩], ⟨7, 30, 11/2⟩⟩, 0, Reason.too_short) :
        St × ℤ × Reason).2.1 = 0
    ∧ (⟨[⟨GameKey.snack, 0, 3/2, 30, 5, 2, 5000⟩], ⟨7, 30, 11/2⟩⟩ : St).sessions =
        ([] : List Session) ++
        [{ game := GameKey.snack, calories := 0, miles := max 0 (3/2 : ℚ),
           bestSeconds := max 0 (30 : ℚ), score := max 0 ⌊(5 : ℚ)⌋,
           streak := max 0 ⌊(2 : ℚ)⌋, durationMs := max 0 ⌊(5000 : ℚ)⌋ }]
    ∧ (⟨7, 30, 11/2⟩ : UserRow).totalCalories = (⟨7, 10, 4⟩ : UserRow).totalCalories
    ∧ (⟨7, 30, 11/2⟩ : UserRow).totalMiles = (⟨7, 10, 4⟩ : UserRow).totalMiles + max 0 (3/2 : ℚ)
    ∧ (⟨7, 30, 11/2⟩ : UserRow).bestSeconds =
        max (⟨7, 10, 4⟩ : UserRow).bestSeconds (max 0 (30 : ℚ)) := by
  have hcalc : computeEarnedCalories GameKey.snack 5 (3/2) 30 5000 = (0, Reason.too_short) := by
    norm_num [computeEarnedCalories, clampQ, RULES, COMMON_RULES, SCORE_PER_MIN_CAP] <;> decide
  have hsub : submit ⟨[], ⟨7, 10, 4⟩⟩ ⟨GameKey.snack, 5, 3/2, 30, 5000, 2⟩ =
      some (⟨[⟨GameKey.snack, 0, 3/2, 30, 5, 2, 5000⟩], ⟨7, 30, 11/2⟩⟩, 0, Reason.too_short) := by
    norm_num [submit, submitWrite, todaySnapshot, getTodayCalories, cappedCredit, logSessionRow,
      addActivityU, streakNorm, hcalc, RULES, COMMON_RULES] <;> decide
  exact rejected_submission_still_logged ⟨[], ⟨7, 10, 4⟩⟩ ⟨GameKey.snack, 5, 3/2, 30, 5000, 2⟩ _
    hsub (Or.inl (by rw [hcalc]))

/-! ### Scenario B of the specification, on the configured rules -/

/-- C7 counterexample: on the configured rules of the current `RULES` table
(`maxRunCalories = 180`), the Scenario B submission — runner, `durationMs =
60000`, `miles = 2.0`, no prior sessions today — is credited 180, not the
claimed 220: the base 2.0 × 110 = 220 and time cap 1 × 220 = 220 are clamped
by the per-run cap 180. -/
theorem runner_scenarioB_counterexample :
    submit ⟨[], ⟨0, 0, 0⟩⟩ ⟨GameKey.runner, 0, 2, 0, 60000, 0⟩ =
      some (⟨[⟨GameKey.runner, 180, 2, 0, 0, 0, 60000⟩], ⟨180, 0, 2⟩⟩, 180, Reason.ok)
    ∧ (computeEarnedCalories GameKey.runner 0 2 0 60000).1 ≠ 220 := by
  have hcalc : computeEarnedCalories GameKey.runner 0 2 0 60000 = (180, Reason.ok) := by
    norm_num [computeEarnedCalories, clampQ, RULES, COMMON_RULES, SCORE_PER_MIN_CAP] <;> decide
  constructor
  · norm_num [submit, submitWrite, todaySnapshot, getTodayCalories, cappedCredit, logSessionRow,
      addActivityU, streakNorm, hcalc, RULES, COMMON_RULES] <;> decide
  · rw [hcalc]
    decide

/-- C7 amended: the Scenario B submission (runner, 60000 ms, 2.0 miles, no
prior sessions today) yields earnedCalories exactly 180: base = 2.0 × 110 =
220 and time cap = 1 × 220 = 220, clamped by the per-run cap
`maxRunCalories = 180`. -/
theorem runner_scenarioB_amended :
    computeEarnedCalories GameKey.runner 0 2 0 60000 = (180, Reason.ok)
    ∧ (max 0 (2 : ℚ)) * 110 = 220
    ∧ ((60000 : ℚ) / 60000) * ((RULES GameKey.runner).cpmCap : ℚ) = 220
    ∧ min (220 : ℚ) ((RULES GameKey.runner).maxRunCalories : ℚ) = 180
    ∧ (submit ⟨[], ⟨0, 0, 0⟩⟩ ⟨GameKey.runner, 0, 2, 0, 60000, 0⟩).map (fun o => o.2.1) =
        some 180 := by
  have hcalc : computeEarnedCalories GameKey.runner 0 2 0 60000 = (180, Reason.ok) := by
    norm_num [computeEarnedCalories, clampQ, RULES, COMMON_RULES, SCORE_PER_MIN_CAP] <;> decide
  refine ⟨hcalc, by norm_num, by norm_num [RULES, COMMON_RULES], by norm_num [RULES, COMMON_RULES], ?_⟩
  norm_num [submit, submitWrite, todaySnapshot, getTodayCalories, cappedCredit, logSessionRow,
    addActivityU, streakNorm, hcalc, RULES, COMMON_RULES] <;> decide

/-! ### The daily cap under concurrent submissions -/

/-- C2: the read-then-write cap check is not serializable.  From the
reachable day state of six accepted runner submissions (6 × 180 = 1080
credited, 120 of headroom), two concurrent identical submissions — each
provisional 180 — that both read `getTodayAgg` before either writes are each
clamped against the same stale total and jointly credit 240, landing the day
total at 1320 > 1200 = `dailyCapCalories`; processed one at a time the same
two requests land exactly on 1200. -/
theorem concurrent_submits_exceed_daily_cap :
    runSubmits ⟨[], ⟨0, 0, 0⟩⟩
        (List.replicate 6 ⟨GameKey.runner, 0, 2, 0, 60000, 0⟩) =
      ⟨List.replicate 6 ⟨GameKey.runner, 180, 2, 0, 0, 0, 60000⟩, ⟨1080, 0, 12⟩⟩
    ∧ getTodayCalories
        ⟨List.replicate 6 ⟨GameKey.runner, 180, 2, 0, 0, 0, 60000⟩, ⟨1080, 0, 12⟩⟩
        GameKey.runner = 1080
    ∧ getTodayCalories
        (racedPair ⟨List.replicate 6 ⟨GameKey.runner, 180, 2, 0, 0, 0, 60000⟩, ⟨1080, 0, 12⟩⟩
          ⟨GameKey.runner, 0, 2, 0, 60000, 0⟩ ⟨GameKey.runner, 0, 2, 0, 60000, 0⟩)
        GameKey.runner = 1320
    ∧ ((RULES GameKey.runner).dailyCapCalories : ℤ) = 1200
    ∧ (1200 : ℤ) < 1320
    ∧ getTodayCalories
        (runSubmits ⟨List.replicate 6 ⟨GameKey.runner, 180, 2, 0, 0, 0, 60000⟩, ⟨1080, 0, 12⟩⟩
          [⟨GameKey.runner, 0, 2, 0, 60000, 0⟩, ⟨GameKey.runner, 0, 2, 0, 60000, 0⟩])
        GameKey.runner = 1200 := by
  have hcalc : computeEarnedCalories GameKey.runner 0 2 0 60000 = (180, Reason.ok) := by
    norm_num [computeEarnedCalories, clampQ, RULES, COMMON_RULES, SCORE_PER_MIN_CAP] <;> decide
  refine ⟨?_, ?_, ?_, by norm_num [RULES, COMMON_RULES], by norm_num, ?_⟩ <;>
    norm_num [runSubmits, submitApply, submit, submitWrite, racedPair, todaySnapshot,
      getTodayCalories, cappedCredit, logSessionRow, addActivityU, streakNorm, hcalc,
      RULES, COMMON_RULES, List.replicate] <;> decide

/-! ### Persistence structure of the two ingestion paths -/

/-- C6: on the primary submit path the receipt insert and the rollup update
are not wrapped in one transaction: when the rollup update throws after a
successful receipt insert, the request fails (500) yet the receipt remains
persisted while the rollup is lost — the whole operation is not atomic.  On
the legacy add path, a receipt-logging failure is swallowed: the request
still succeeds and the rollup update stands with no receipt. -/
theorem submit_receipt_rollup_not_atomic :
    ((submitPersist ⟨[], ⟨0, 0, 0⟩⟩ ⟨GameKey.runner, 0, 2, 0, 60000, 0⟩ false true).2 = false
    ∧ (submitPersist ⟨[], ⟨0, 0, 0⟩⟩ ⟨GameKey.runner, 0, 2, 0, 60000, 0⟩ false true).1.sessions =
        [⟨GameKey.runner, 180, 2, 0, 0, 0, 60000⟩]
    ∧ (submitPersist ⟨[], ⟨0, 0, 0⟩⟩ ⟨GameKey.runner, 0, 2, 0, 60000, 0⟩ false true).1.user =
        ⟨0, 0, 0⟩)
    ∧ ((addPathPersist ⟨[], ⟨0, 0, 0⟩⟩ 100 30 2 ⟨GameKey.snack, 100, 0, 30, 40, 0, 60000⟩
          true).2 = true
    ∧ (addPathPersist ⟨[], ⟨0, 0, 0⟩⟩ 100 30 2 ⟨GameKey.snack, 100, 0, 30, 40, 0, 60000⟩
          true).1.user = ⟨100, 30, 2⟩
    ∧ (addPathPersist ⟨[], ⟨0, 0, 0⟩⟩ 100 30 2 ⟨GameKey.snack, 100, 0, 30, 40, 0, 60000⟩
          true).1.sessions = []) := by
  have hcalc : computeEarnedCalories GameKey.runner 0 2 0 60000 = (180, Reason.ok) := by
    norm_num [computeEarnedCalories, clampQ, RULES, COMMON_RULES, SCORE_PER_MIN_CAP] <;> decide
  refine ⟨⟨?_, ?_, ?_⟩, ⟨?_, ?_, ?_⟩⟩ <;>
    norm_num [submitPersist, addPathPersist, todaySnapshot, getTodayCalories, cappedCredit,
      logSessionRow, addActivityU, streakNorm, hcalc, RULES, COMMON_RULES] <;> decide

/-! ### Monotonicity of the lifetime best-duration rollup -/

/-- An `addActivity` apply always leaves a non-negative best-duration. -/
theorem addActivityU_best_nonneg (u : UserRow) (a b m : ℚ) :
    0 ≤ (addActivityU u a b m).bestSeconds :=
  le_trans (le_max_left 0 b) (le_max_right _ _)

/-- Along any sequence of applies from a non-negative start, the
best-duration stays non-negative. -/
theorem runAddActivities_best_nonneg (applies : List (ℚ × ℚ × ℚ)) (u : UserRow)
    (h : 0 ≤ u.bestSeconds) : 0 ≤ (runAddActivities u applies).bestSeconds := by
  induction applies generalizing u with
  | nil => exact h
  | cons p l ih => exact ih _ (addActivityU_best_nonneg u p.1 p.2.1 p.2.2)

/-- For a non-negative previous best, `GREATEST(prev, max(0, cand))` is just
`max(prev, cand)`. -/
theorem max_max0_eq (p c : ℚ) (hp : 0 ≤ p) : max p (max 0 c) = max p c := by
  rcases le_total c 0 with h | h
  · rw [max_eq_left h, max_eq_left hp, max_eq_left (h.trans hp)]
  · rw [max_eq_right h]

/-- C9: for every user whose stored best-duration starts non-negative (the
column default is 0), each `addActivity` apply sets `best_seconds` to the
maximum of its previous value and the submitted candidate, and the value
never decreases across any sequence of applies. -/
theorem best_seconds_monotone (u0 : UserRow) (applies : List (ℚ × ℚ × ℚ)) (a : ℚ × ℚ × ℚ)
    (h0 : 0 ≤ u0.bestSeconds) :
    (runAddActivities u0 (applies ++ [a])).bestSeconds =
      max (runAddActivities u0 applies).bestSeconds a.2.1
    ∧ (runAddActivities u0 applies).bestSeconds ≤
      (runAddActivities u0 (applies ++ [a])).bestSeconds := by
  have happ : runAddActivities u0 (applies ++ [a]) =
      addActivityU (runAddActivities u0 applies) a.1 a.2.1 a.2.2 := by
    unfold runAddActivities
    rw [List.foldl_append]
    rfl
  have hprev : 0 ≤ (runAddActivities u0 applies).bestSeconds :=
    runAddActivities_best_nonneg applies u0 h0
  constructor
  · rw [happ]
    exact max_max0_eq _ _ hprev
  · rw [happ]
    exact le_max_left _ _

/-- C9 witness: from the fresh-row default 0, applying candidates 30 then 20
leaves the best at `max 30 20 = 30` and never decreases it. -/
theorem best_seconds_monotone_witness :
    (runAddActivities ⟨0, 0, 0⟩ ([(10, 30, 1)] ++ [(5, 20, 2)])).bestSeconds =
      max (runAddActivities ⟨0, 0, 0⟩ [(10, 30, 1)]).bestSeconds (5, 20, 2).2.1
    ∧ (runAddActivities ⟨0, 0, 0⟩ [(10, 30, 1)]).bestSeconds ≤
      (runAddActivities ⟨0, 0, 0⟩ ([(10, 30, 1)] ++ [(5, 20, 2)])).bestSeconds :=
  best_seconds_monotone ⟨0, 0, 0⟩ [(10, 30, 1)] (5, 20, 2) le_rfl

/-! ### Leaderboard window filters are calendar truncations -/

/-- Within one month, the day number is linear in the day-of-month: day `d`
is `d - 1` days after the first of the month. -/
theorem daysFromCivil_day_offset (y m : ℕ) {d : ℕ} (hd : 1 ≤ d) :
    daysFromCivil y m d = daysFromCivil y m 1 + (d : ℤ) - 1 := by
  unfold daysFromCivil
  dsimp only
  generalize (if m ≤ 2 then y - 1 else y) = y'
  omega

/-- C8: for every valid current time, `getLeaderboardV2`'s `day`, `week` and
`month` windows filter the ledger by `created_at >=` the start of the current
calendar day (midnight of the current date, within the last 24 h), the start
of the current calendar week (a Monday midnight, within the last 7 days) and
the start of the current calendar month (midnight of day 1, within the last
31 days); `lifetime` applies no filter.  These calendar-truncation bounds
differ from the rolling `now - 24h/7d/30d` bounds, witnessed at noon of
Monday 2026-10-12. -/
theorem leaderboard_windows_calendar_truncation :
    (∀ now : Civil, now.Valid →
      (whereTimeLB "day" now = some (truncDayQ now)
        ∧ truncDayQ now ≤ now.toQ ∧ now.toQ - truncDayQ now < 1)
      ∧ (whereTimeLB "week" now = some (truncWeekQ now)
        ∧ truncWeekQ now ≤ now.toQ ∧ now.toQ - truncWeekQ now < 7
        ∧ (now.days - (now.days + 3) % 7 + 3) % 7 = 0)
      ∧ (whereTimeLB "month" now = some (truncMonthQ now)
        ∧ truncMonthQ now ≤ now.toQ ∧ now.toQ - truncMonthQ now < 31)
      ∧ whereTimeLB "lifetime" now = none)
    ∧ (whereTimeLB "day" ⟨2026, 10, 12, 1/2⟩ ≠ rollingLB "day" ⟨2026, 10, 12, 1/2⟩
      ∧ whereTimeLB "week" ⟨2026, 10, 12, 1/2⟩ ≠ rollingLB "week" ⟨2026, 10, 12, 1/2⟩
      ∧ whereTimeLB "month" ⟨2026, 10, 12, 1/2⟩ ≠ rollingLB "month" ⟨2026, 10, 12, 1/2⟩) := by
  constructor
  · intro now hv
    obtain ⟨hy, hm1, hm2, hd1, hd2, hf0, hf1⟩ := hv
    have hr0 : (0 : ℤ) ≤ (now.days + 3) % 7 := by omega
    have hr6 : (now.days + 3) % 7 ≤ 6 := by omega
    have hmonth := daysFromCivil_day_offset now.year now.month hd1
    refine ⟨⟨?_, ?_, ?_⟩, ⟨?_, ?_, ?_, ?_⟩, ⟨?_, ?_, ?_⟩, ?_⟩
    · unfold whereTimeLB
      rw [if_pos rfl]
    · unfold truncDayQ Civil.toQ
      linarith
    · unfold truncDayQ Civil.toQ
      linarith
    · unfold whereTimeLB
      rw [if_neg (by decide), if_pos rfl]
    · unfold truncWeekQ Civil.toQ
      have h1 : ((now.days - (now.days + 3) % 7 : ℤ) : ℚ) ≤ (now.days : ℚ) := by
        exact_mod_cast sub_le_self _ hr0
      linarith
    · unfold truncWeekQ Civil.toQ
      have h1 : ((now.days : ℤ) : ℚ) - ((now.days - (now.days + 3) % 7 : ℤ) : ℚ) ≤ 6 := by
        rw [← Int.cast_sub]
        have : (now.days : ℤ) - (now.days - (now.days + 3) % 7) ≤ 6 := by omega
        exact_mod_cast this
      linarith
    · omega
    · unfold whereTimeLB
      rw [if_neg (by decide), if_neg (by decide), if_pos rfl]
    · unfold truncMonthQ Civil.toQ Civil.days
      rw [hmonth]
      have hdq : (1 : ℚ) ≤ (now.day : ℚ) := by exact_mod_cast hd1
      push_cast
      linarith
    · unfold truncMonthQ Civil.toQ Civil.days
      rw [hmonth]
      have hdq : (now.day : ℚ) ≤ 31 := by exact_mod_cast hd2
      push_cast
      linarith
    · unfold whereTimeLB
      rw [if_neg (by decide), if_neg (by decide), if_neg (by decide)]
  · refine ⟨?_, ?_, ?_⟩ <;>
      norm_num [whereTimeLB, rollingLB, truncDayQ, truncWeekQ, truncMonthQ, Civil.toQ,
        Civil.days, daysFromCivil] <;>
      norm_num [show ¬ ("week" : String) = "day" from by decide,
        show ¬ ("month" : String) = "day" from by decide,
        show ¬ ("month" : String) = "week" from by decide]

/-- C8 witness: at noon of 2026-10-12 the week window's lower bound is a
Monday midnight at most 7 days back, and `lifetime` applies no filter. -/
theorem leaderboard_windows_calendar_truncation_witness :
    truncWeekQ ⟨2026, 10, 12, 1/2⟩ ≤ Civil.toQ ⟨2026, 10, 12, 1/2⟩
    ∧ Civil.toQ ⟨2026, 10, 12, 1/2⟩ - truncWeekQ ⟨2026, 10, 12, 1/2⟩ < 7
    ∧ whereTimeLB "lifetime" ⟨2026, 10, 12, 1/2⟩ = none := by
  have h := leaderboard_windows_calendar_truncation.1 ⟨2026, 10, 12, 1/2⟩
    (by norm_num [Civil.Valid])
  exact ⟨h.2.1.2.1, h.2.1.2.2.1, h.2.2.2⟩

end PF
